import Mathlib

/-!
Verification of the NPHW3 game-hosting platform control plane against its
specification.  The Python sources are shallowly embedded as executable Lean
definitions: byte streams are `List Nat` (each element < 256 where relevant),
JSON dictionaries become structures with `Option` fields (`none` models an
absent key), and the mutable global tables of the lobby and storage services
become explicit state records threaded through the handler functions.
Network, file-system and clock effects are made explicit parameters; the
cryptographic hash functions, which no claim inspects, are abstracted as
injective tagging functions.
-/

namespace NPHW3

/-! ## Wire protocol (common/protocol.py)

A frame is a 4-byte big-endian unsigned length header followed by the body.
A socket's incoming byte stream is modelled as a `List Nat`; `recv` returning
fewer bytes than requested because the peer closed is modelled by the stream
simply ending. -/

/-- Maximum body size: 64 KiB (`MAX_MSG_SIZE` in common/protocol.py). -/
def MAX_MSG_SIZE : Nat := 65536

/-- Big-endian packing of a 4-byte unsigned length (`struct.pack("!I", n)`). -/
def packLen (n : Nat) : List Nat :=
  [n / 16777216 % 256, n / 65536 % 256, n / 256 % 256, n % 256]

/-- Big-endian unpacking of a 4-byte header (`struct.unpack("!I", b)[0]`). -/
def unpackLen : List Nat → Nat
  | [b0, b1, b2, b3] => ((b0 * 256 + b1) * 256 + b2) * 256 + b3
  | _ => 0

/-- Models `_recv_all(sock, length)`: returns the first `length` bytes of the
stream together with the remaining stream, or `none` when the peer closed the
connection before `length` bytes arrived (the stream is shorter). -/
def recv_all (stream : List Nat) (length : Nat) : Option (List Nat × List Nat) :=
  if stream.length < length then none
  else some (stream.take length, stream.drop length)

/-- Outcome of `recv_msg`. The Python function returns `None` both when the
peer disconnected and when it closed the socket itself on a protocol
violation; the model keeps the two apart so that the closing behaviour is
visible. -/
inductive RecvResult where
  /-- A full body was read; `rest` is the unread remainder of the stream. -/
  | msg (body : List Nat) (rest : List Nat)
  /-- The header carried a length outside `(0, MAX_MSG_SIZE]`: the receiver
  closes the connection and returns no message. -/
  | violationClosed
  /-- The peer disconnected before a full header or body arrived. -/
  | disconnected
deriving Repr, DecidableEq

/-- Models `recv_msg(sock)` from common/protocol.py. -/
def recv_msg (stream : List Nat) : RecvResult :=
  match recv_all stream 4 with
  | none => .disconnected
  | some (header_bytes, rest) =>
    let body_length := unpackLen header_bytes
    if ¬ (0 < body_length ∧ body_length ≤ MAX_MSG_SIZE) then .violationClosed
    else
      match recv_all rest body_length with
      | none => .disconnected
      | some (body_bytes, rest2) => .msg body_bytes rest2

/-- Models `send_msg(sock, message_bytes)`: `none` models the `ValueError`
raised for oversized bodies, otherwise the bytes put on the wire. -/
def send_msg (message_bytes : List Nat) : Option (List Nat) :=
  if message_bytes.length > MAX_MSG_SIZE then none
  else some (packLen message_bytes.length ++ message_bytes)

lemma unpackLen_packLen (n : Nat) (h : n < 4294967296) :
    unpackLen (packLen n) = n := by
  simp only [packLen, unpackLen]
  omega

lemma recv_all_append (xs ys : List Nat) :
    recv_all (xs ++ ys) xs.length = some (xs, ys) := by
  simp [recv_all]

/-! ## Storage data model (common/db_operations.py)

Each JSON collection file holds `{collection: [...], next_id: N}`.  Records
are structures; a JSON value that may be `null`/absent is an `Option`.
File loading/saving is abstracted into pure state threading (the atomic
temp-file/rename dance has no observable effect on the stored data), and
`datetime.now().isoformat()` timestamps are supplied as an explicit `now`
string argument. -/

/-- Truthiness of an optional string, as Python `if not s` (absent or empty
is falsy). -/
def truthyStr : Option String → Bool
  | some s => !s.isEmpty
  | none => false

/-- Truthiness of an optional integer, as Python `if not n` (absent or 0 is
falsy). -/
def truthyNat : Option Nat → Bool
  | some n => n != 0
  | none => false

/-- Python `str(x)` applied to a value that is either a string or `None`
(used by `search_games` on the description field: `str(None) = "None"`). -/
def pyStr : Option String → String
  | some s => s
  | none => "None"

/-- A user row in storage/users.json. -/
structure StUser where
  id : Nat
  username : String
  password_hash : String
  status : String
  is_developer : Bool
  created_at : String
deriving Repr, DecidableEq

/-- A game row in storage/games.json. -/
structure StGame where
  id : Nat
  name : String
  author : String
  description : Option String
  current_version : Option String
  deleted : Bool
  created_at : String
  updated_at : String
deriving Repr, DecidableEq

/-- A game-version row in storage/game_versions.json. -/
structure StGameVersion where
  id : Nat
  game_id : Nat
  version : String
  file_path : String
  file_hash : Option String
  uploaded_at : String
deriving Repr, DecidableEq

/-- A per-player result object inside a game log, modelled as a JSON object
of string key/value pairs (no claim inspects its contents). -/
abbrev ResultObj := List (String × String)

/-- A game-log row in storage/game_logs.json. -/
structure StGameLog where
  id : Nat
  matchid : Option String
  game_id : Option Nat
  users : List String
  results : List ResultObj
  winner : Option String
  reason : Option String
  start_time : Option String
  end_time : Option String
deriving Repr, DecidableEq

/-- Contents of storage/users.json. -/
structure UsersFile where
  users : List StUser
  next_id : Nat
deriving Repr, DecidableEq

/-- Contents of storage/games.json. -/
structure GamesFile where
  games : List StGame
  next_id : Nat
deriving Repr, DecidableEq

/-- Contents of storage/game_versions.json. -/
structure GameVersionsFile where
  game_versions : List StGameVersion
  next_id : Nat
deriving Repr, DecidableEq

/-- Contents of storage/game_logs.json. -/
structure GameLogsFile where
  game_logs : List StGameLog
  next_id : Nat
deriving Repr, DecidableEq

/-- The storage service's whole persistent state (one file per collection). -/
structure DbState where
  usersFile : UsersFile
  gamesFile : GamesFile
  versionsFile : GameVersionsFile
  logsFile : GameLogsFile
deriving Repr, DecidableEq

/-- Replaces the first list element satisfying `p` by its image under `g`;
the Bool reports whether a match was found.  This is the shape of every
Python loop of the form `for x in rows: if key(x): mutate(x); return True`. -/
def updateFirst {α : Type} (p : α → Bool) (g : α → α) : List α → List α × Bool
  | [] => ([], false)
  | x :: rest =>
    if p x then (g x :: rest, true)
    else
      let r := updateFirst p g rest
      (x :: r.1, r.2)

/-- Insertion into a list kept sorted descending by a string key. -/
def insertDescBy {α : Type} (key : α → String) (x : α) : List α → List α
  | [] => [x]
  | y :: rest =>
    if key y ≤ key x then x :: y :: rest
    else y :: insertDescBy key x rest

/-- Models Python `list.sort(key=..., reverse=True)` (descending by a string
key).  Python uses a stable sort; the claims below only rely on the sorted
list holding exactly the members of the input, so the particular sorting
algorithm is irrelevant. -/
def sortDescBy {α : Type} (key : α → String) (l : List α) : List α :=
  l.foldr (insertDescBy key) []

lemma mem_insertDescBy {α : Type} (key : α → String) (x a : α) (l : List α) :
    a ∈ insertDescBy key x l ↔ a = x ∨ a ∈ l := by
  induction l with
  | nil => simp [insertDescBy]
  | cons y rest ih =>
    simp only [insertDescBy]
    split
    · simp
    · simp only [List.mem_cons, ih]
      tauto

lemma mem_sortDescBy {α : Type} (key : α → String) (a : α) (l : List α) :
    a ∈ sortDescBy key l ↔ a ∈ l := by
  induction l with
  | nil => simp [sortDescBy]
  | cons y rest ih =>
    simp only [sortDescBy, List.foldr_cons] at ih ⊢
    rw [mem_insertDescBy, ih, List.mem_cons]

/-- Checks whether `needle` occurs as a contiguous subsequence of the list. -/
def containsSeq (needle : List Char) : List Char → Bool
  | [] => needle.isEmpty
  | x :: rest => needle.isPrefixOf (x :: rest) || containsSeq needle rest

/-- Models Python `needle in haystack` on strings (substring test). -/
def strContains (haystack needle : String) : Bool :=
  containsSeq needle.toList haystack.toList

/-- Models `hash_password` from common/password_utils.py.  The salted
adaptive hash itself is abstracted as an injective tagging function; no
claim inspects hash values. -/
def hash_password (password : String) : String :=
  "hash:" ++ password

/-- Models `verify_password` (constant-time comparison of the candidate's
hash against the stored hash). -/
def verify_password (password stored_hash : String) : Bool :=
  stored_hash == hash_password password

/-! ### DatabaseOperations methods -/

/-- `DatabaseOperations.get_user`: first row with the given username. -/
def get_user (f : UsersFile) (username : String) : Option StUser :=
  f.users.find? (fun u => u.username == username)

/-- `DatabaseOperations.create_user`: refuse an existing username, otherwise
append a fresh row (status offline) and advance `next_id`. -/
def create_user (f : UsersFile) (username password_hash : String)
    (is_developer : Bool) (now : String) : UsersFile × Bool :=
  if f.users.any (fun u => u.username == username) then (f, false)
  else
    ({ users := f.users ++
        [{ id := f.next_id, username := username, password_hash := password_hash,
           status := "offline", is_developer := is_developer, created_at := now }],
       next_id := f.next_id + 1 }, true)

/-- `DatabaseOperations.update_user_status`: set the status of the first row
with the given username. -/
def update_user_status (f : UsersFile) (username status : String) :
    UsersFile × Bool :=
  let r := updateFirst (fun u => u.username == username)
    (fun u => { u with status := status }) f.users
  ({ f with users := r.1 }, r.2)

/-- `DatabaseOperations.get_game`: first row with the given id (returned
whether or not the game is soft-deleted). -/
def get_game (f : GamesFile) (game_id : Nat) : Option StGame :=
  f.games.find? (fun g => g.id == game_id)

/-- `DatabaseOperations.create_game`: append a fresh row with
`deleted = False` and return its id. -/
def create_game (f : GamesFile) (name author : String)
    (description version : Option String) (now : String) : GamesFile × Nat :=
  ({ games := f.games ++
      [{ id := f.next_id, name := name, author := author,
         description := description, current_version := version,
         deleted := false, created_at := now, updated_at := now }],
     next_id := f.next_id + 1 }, f.next_id)

/-- `DatabaseOperations.list_all_games`: all rows whose deleted flag is not
set, sorted by `updated_at` descending. -/
def list_all_games (f : GamesFile) : List StGame :=
  sortDescBy (fun g => g.updated_at) (f.games.filter (fun g => !g.deleted))

/-- `DatabaseOperations.get_games_by_author`: rows by the author, optionally
including soft-deleted ones, sorted by `updated_at` descending. -/
def get_games_by_author (f : GamesFile) (author : String)
    (include_deleted : Bool) : List StGame :=
  sortDescBy (fun g => g.updated_at)
    (f.games.filter (fun g => g.author == author && (include_deleted || !g.deleted)))

/-- `DatabaseOperations.search_games`: non-deleted rows whose lowercased
name, author or description contains the lowercased query (a `None`
description is rendered by Python `str` as the text "None"), sorted by
`updated_at` descending. -/
def search_games (f : GamesFile) (query : String) : List StGame :=
  let query_lower := query.toLower
  sortDescBy (fun g => g.updated_at)
    (f.games.filter (fun g =>
      !g.deleted &&
        (strContains g.name.toLower query_lower ||
         strContains g.author.toLower query_lower ||
         strContains (pyStr g.description).toLower query_lower)))

/-- `DatabaseOperations.update_game`: on the first row with the given id,
replace each of name/description/current_version that was supplied (Python
`is not None`) and stamp `updated_at`. -/
def update_game (f : GamesFile) (game_id : Nat)
    (name description current_version : Option String) (now : String) :
    GamesFile × Bool :=
  let r := updateFirst (fun g => g.id == game_id)
    (fun g =>
      let g1 := match name with | some n => { g with name := n } | none => g
      let g2 := match description with | some d => { g1 with description := some d } | none => g1
      let g3 := match current_version with | some v => { g2 with current_version := some v } | none => g2
      { g3 with updated_at := now }) f.games
  ({ f with games := r.1 }, r.2)

/-- `DatabaseOperations.delete_game`: soft delete — set the deleted flag of
the first row with the given id and stamp `updated_at`; the row itself (and
every other collection) is kept. -/
def delete_game (f : GamesFile) (game_id : Nat) (now : String) :
    GamesFile × Bool :=
  let r := updateFirst (fun g => g.id == game_id)
    (fun g => { g with deleted := true, updated_at := now }) f.games
  ({ f with games := r.1 }, r.2)

/-- `DatabaseOperations.create_game_version`: refuse a duplicate
(game id, version) pair, otherwise append a fresh row. -/
def create_game_version (f : GameVersionsFile) (game_id : Nat)
    (version file_path : String) (file_hash : Option String) (now : String) :
    GameVersionsFile × Option Nat :=
  if f.game_versions.any (fun v => v.game_id == game_id && v.version == version) then
    (f, none)
  else
    ({ game_versions := f.game_versions ++
        [{ id := f.next_id, game_id := game_id, version := version,
           file_path := file_path, file_hash := file_hash, uploaded_at := now }],
       next_id := f.next_id + 1 }, some f.next_id)

/-- `DatabaseOperations.get_game_version`: first row with the given game id
and version string. -/
def get_game_version (f : GameVersionsFile) (game_id : Nat) (version : String) :
    Option StGameVersion :=
  f.game_versions.find? (fun v => v.game_id == game_id && v.version == version)

/-- `DatabaseOperations.get_latest_version`: the game's versions sorted by
`uploaded_at` descending; the head, if any. -/
def get_latest_version (f : GameVersionsFile) (game_id : Nat) :
    Option StGameVersion :=
  (sortDescBy (fun v => v.uploaded_at)
    (f.game_versions.filter (fun v => v.game_id == game_id))).head?

/-- `DatabaseOperations.create_game_log`: refuse a duplicate match id
(leaving the file untouched), otherwise append a fresh row and advance
`next_id`. -/
def create_game_log (f : GameLogsFile) (matchid : Option String)
    (game_id : Option Nat) (users : List String) (results : List ResultObj)
    (winner reason start_time end_time : Option String) :
    GameLogsFile × Bool :=
  if f.game_logs.any (fun log => log.matchid == matchid) then (f, false)
  else
    ({ game_logs := f.game_logs ++
        [{ id := f.next_id, matchid := matchid, game_id := game_id,
           users := users, results := results, winner := winner,
           reason := reason, start_time := start_time, end_time := end_time }],
       next_id := f.next_id + 1 }, true)

/-- `DatabaseOperations.get_game_logs`: optionally filtered to logs whose
user list contains the (truthy) user id, sorted by `start_time` descending
(`None` start time sorts as the empty string). -/
def get_game_logs (f : GameLogsFile) (user_id : Option String) :
    List StGameLog :=
  sortDescBy (fun log => log.start_time.getD "")
    (f.game_logs.filter (fun log =>
      if truthyStr user_id then log.users.contains (user_id.getD "") else true))

/-! ## Storage service dispatcher (server/db_server.py, `process_request`)

One request per TCP connection; the request is a `(collection, action)` pair
plus a `data` object.  The `data` dictionary is modelled as a structure of
optional fields (`none` = key absent).  Responses are modelled by an
inductive carrying exactly the payload the Python dict would: the reason
string for errors, the projected user for `User.query`, etc. -/

/-- The `data` object of a storage request; every field is optional, as a
Python `dict.get`. -/
structure DbData where
  username : Option String := none
  password : Option String := none
  status : Option String := none
  is_developer : Option Bool := none
  name : Option String := none
  author : Option String := none
  description : Option String := none
  version : Option String := none
  current_version : Option String := none
  game_id : Option Nat := none
  file_path : Option String := none
  file_hash : Option String := none
  matchid : Option String := none
  users : Option (List String) := none
  results : Option (List ResultObj) := none
  winner : Option String := none
  reason : Option String := none
  start_time : Option String := none
  end_time : Option String := none
  query : Option String := none
  userId : Option String := none
deriving Repr, DecidableEq

/-- The empty `data` dictionary. -/
def DbData.empty : DbData := {}

/-- A storage request envelope `{collection, action, data}`. -/
structure DbRequest where
  collection : String
  action : String
  data : DbData := {}
deriving Repr, DecidableEq

/-- A storage response.  `ok*` constructors are `{"status":"ok", ...}` with
the respective payload; `err` is `{"status":"error","reason":...}`. -/
inductive DbResp where
  | ok
  | okUser (username : String) (is_developer : Bool)
  | okGameId (game_id : Nat)
  | okGame (game : StGame)
  | okGames (games : List StGame)
  | okVersion (version : StGameVersion)
  | okVersionId (version_id : Nat)
  | okLogs (logs : List StGameLog)
  | err (reason : String)
deriving Repr, DecidableEq

/-- Did the response carry `"status": "ok"`? -/
def DbResp.isOk : DbResp → Bool
  | .err _ => false
  | _ => true

/-- Models `process_request(request_data)` from server/db_server.py, with the
collection files threaded explicitly.  Returns the updated state together
with the response. -/
def process_request (st : DbState) (now : String) (req : DbRequest) :
    DbState × DbResp :=
  let data := req.data
  if req.collection == "User" then
    if req.action == "create" then
      if !(truthyStr data.username && truthyStr data.password) then
        (st, .err "missing_fields")
      else
        let username := data.username.getD ""
        if (get_user st.usersFile username).isSome then
          (st, .err "user_exists")
        else
          let r := create_user st.usersFile username
            (hash_password (data.password.getD "")) (data.is_developer.getD false) now
          if r.2 then ({ st with usersFile := r.1 }, .ok)
          else ({ st with usersFile := r.1 }, .err "user_exists")
    else if req.action == "query" then
      if !(truthyStr data.username && truthyStr data.password) then
        (st, .err "missing_fields")
      else
        let username := data.username.getD ""
        match get_user st.usersFile username with
        | some user =>
          if verify_password (data.password.getD "") user.password_hash then
            (st, .okUser username user.is_developer)
          else (st, .err "invalid_credentials")
        | none => (st, .err "invalid_credentials")
    else if req.action == "update" then
      if !(truthyStr data.username && truthyStr data.status) then
        (st, .err "missing_fields_for_update")
      else
        let r := update_user_status st.usersFile (data.username.getD "") (data.status.getD "")
        if r.2 then ({ st with usersFile := r.1 }, .ok)
        else ({ st with usersFile := r.1 }, .err "user_not_found")
    else
      (st, .err ("Unknown action \x27" ++ req.action ++ "\x27 for User"))
  else if req.collection == "GameLog" then
    if req.action == "create" then
      if data == DbData.empty then (st, .err "missing_gamelog_data")
      else
        let r := create_game_log st.logsFile data.matchid data.game_id
          (data.users.getD []) (data.results.getD []) data.winner data.reason
          data.start_time data.end_time
        if r.2 then ({ st with logsFile := r.1 }, .ok)
        else ({ st with logsFile := r.1 }, .err "gamelog_already_exists")
    else if req.action == "query" then
      (st, .okLogs (get_game_logs st.logsFile data.userId))
    else
      (st, .err ("Unknown action \x27" ++ req.action ++ "\x27 for GameLog"))
  else if req.collection == "Game" then
    if req.action == "create" then
      if !(truthyStr data.name && truthyStr data.author) then
        (st, .err "missing_fields")
      else
        let r := create_game st.gamesFile (data.name.getD "") (data.author.getD "")
          data.description data.version now
        if r.2 != 0 then ({ st with gamesFile := r.1 }, .okGameId r.2)
        else ({ st with gamesFile := r.1 }, .err "failed_to_create_game")
    else if req.action == "query" then
      if truthyNat data.game_id then
        match get_game st.gamesFile (data.game_id.getD 0) with
        | some game => (st, .okGame game)
        | none => (st, .err "game_not_found")
      else (st, .err "missing_game_id")
    else if req.action == "list" then
      (st, .okGames (list_all_games st.gamesFile))
    else if req.action == "list_by_author" then
      if !truthyStr data.author then (st, .err "missing_author")
      else (st, .okGames (get_games_by_author st.gamesFile (data.author.getD "") false))
    else if req.action == "search" then
      if !truthyStr (some (data.query.getD "")) then (st, .err "missing_query")
      else (st, .okGames (search_games st.gamesFile (data.query.getD "")))
    else if req.action == "update" then
      if !truthyNat data.game_id then (st, .err "missing_game_id")
      else
        let r := update_game st.gamesFile (data.game_id.getD 0)
          data.name data.description data.current_version now
        if r.2 then ({ st with gamesFile := r.1 }, .ok)
        else ({ st with gamesFile := r.1 }, .err "failed_to_update_game")
    else if req.action == "delete" then
      if !truthyNat data.game_id then (st, .err "missing_game_id")
      else
        let r := delete_game st.gamesFile (data.game_id.getD 0) now
        if r.2 then ({ st with gamesFile := r.1 }, .ok)
        else ({ st with gamesFile := r.1 }, .err "failed_to_delete_game")
    else
      (st, .err ("Unknown action \x27" ++ req.action ++ "\x27 for Game"))
  else if req.collection == "GameVersion" then
    if req.action == "create" then
      if !(truthyNat data.game_id && truthyStr data.version && truthyStr data.file_path) then
        (st, .err "missing_fields")
      else
        let r := create_game_version st.versionsFile (data.game_id.getD 0)
          (data.version.getD "") (data.file_path.getD "") data.file_hash now
        if truthyNat r.2 then ({ st with versionsFile := r.1 }, .okVersionId (r.2.getD 0))
        else ({ st with versionsFile := r.1 }, .err "failed_to_create_version")
    else if req.action == "query" then
      if !truthyNat data.game_id then (st, .err "missing_game_id")
      else
        let version_info :=
          if truthyStr data.version then
            get_game_version st.versionsFile (data.game_id.getD 0) (data.version.getD "")
          else get_latest_version st.versionsFile (data.game_id.getD 0)
        match version_info with
        | some v => (st, .okVersion v)
        | none => (st, .err "version_not_found")
    else
      (st, .err ("Unknown action \x27" ++ req.action ++ "\x27 for GameVersion"))
  else
    (st, .err ("Unknown collection \x27" ++ req.collection ++ "\x27"))

/-! ## Developer handlers (server/handlers/developer_handler.py)

The lobby-side handlers for upload_game / update_game / remove_game.  Each
`forward_to_db` call becomes an application of `process_request` on the
threaded storage state (the model network never fails).  The lobby-local
file system is an association list from path to bytes; base64 transport is
abstracted: the `file_data` field holds the already-decoded bytes (decoding
failures are out of the claims' scope), and SHA-256 is abstracted as an
injective encoding. -/

/-- A file system as a finite map from path to file bytes. -/
abbrev FileSys := List (String × List Nat)

/-- Writes (or overwrites) a file. -/
def fsWrite (fs : FileSys) (path : String) (bytes : List Nat) : FileSys :=
  (path, bytes) :: fs.filter (fun e => e.1 != path)

/-- Models `calculate_file_hash` (SHA-256 hex digest, abstracted as an
injective encoding of the bytes; no claim inspects digests). -/
def calculate_file_hash (file_data : List Nat) : String :=
  "sha256:" ++ toString file_data

/-- Models `save_game_file`: writes the bytes to
`storage/games/<game_id>/v<version>/game.py` and returns the path (directory
creation and OS failures are out of scope, so the write always succeeds). -/
def save_game_file (fs : FileSys) (game_id : Nat) (version : String)
    (file_data : List Nat) : FileSys × String :=
  let file_path := "storage/games/" ++ toString game_id ++ "/v" ++ version ++ "/game.py"
  (fsWrite fs file_path file_data, file_path)

/-- Models `read_game_from_developer_folder`: looks `developer/games/<name>`
up in the lobby-local file system (the path-traversal guard, an OS-path
check, is not modelled; none of the claims exercise it). -/
def read_game_from_developer_folder (fs : FileSys) (file_name : String) :
    Option (List Nat) :=
  List.lookup ("developer/games/" ++ file_name) fs

/-- Models `check_developer(username, ...)`: issues a `User`/`get` storage
request and reports the returned user's `is_developer` flag, treating any
non-ok response (or a response without a user object) as `False`. -/
def check_developer (st : DbState) (now : String) (username : String) : Bool :=
  if username.isEmpty then false
  else
    match (process_request st now
      { collection := "User", action := "get",
        data := { username := some username } }).2 with
    | .okUser _ is_dev => is_dev
    | _ => false

/-- The `data` object of a developer action; `file_data` holds the decoded
upload bytes (see the section comment). -/
structure DevData where
  name : Option String := none
  description : Option String := none
  version : Option String := none
  file_data : Option (List Nat) := none
  file_name : Option String := none
  game_id : Option Nat := none
deriving Repr, DecidableEq

/-- Truthiness of the optional decoded `file_data` (Python tests the base64
string: absent or empty is falsy). -/
def truthyBytes : Option (List Nat) → Bool
  | some b => !b.isEmpty
  | none => false

/-- Response of a developer handler: `{"status":"ok", game_id, version}` for
upload/update, bare `{"status":"ok"}` for remove, or an error reason. -/
inductive DevResp where
  | ok (game_id : Nat) (version : String)
  | okRemove
  | err (reason : String)
deriving Repr, DecidableEq

/-- Did the developer handler reply `{"status":"ok", ...}`? -/
def DevResp.isOk : DevResp → Bool
  | .err _ => false
  | _ => true

/-- Models `handle_upload_game` (developer_handler.py lines 122-204):
developer gate, file resolution, `Game`/`create`, file write, and
`GameVersion`/`create` (whose failure is only logged). -/
def handle_upload_game (st : DbState) (fs : FileSys) (now : String)
    (username : String) (data : DevData) : DbState × FileSys × DevResp :=
  if !check_developer st now username then (st, fs, .err "not_developer")
  else
    let name := data.name
    let description := data.description.getD ""
    let version := data.version.getD "1.0.0"
    if !truthyStr name then (st, fs, .err "missing_name")
    else
      let file_data? : Option (List Nat) :=
        if truthyBytes data.file_data then data.file_data
        else if truthyStr data.file_name then
          read_game_from_developer_folder fs (data.file_name.getD "")
        else none
      if !truthyBytes data.file_data && truthyStr data.file_name && file_data?.isNone then
        (st, fs, .err "file_not_found_in_developer_folder")
      else if !truthyBytes data.file_data && !truthyStr data.file_name then
        (st, fs, .err "missing_file_data_or_file_name")
      else
        let file_data := file_data?.getD []
        let file_hash := calculate_file_hash file_data
        let r1 := process_request st now
          { collection := "Game", action := "create",
            data := { name := name, author := some username,
                      description := some description, version := some version } }
        match r1.2 with
        | .okGameId game_id =>
          if game_id == 0 then (r1.1, fs, .err "no_game_id_returned")
          else
            let s := save_game_file fs game_id version file_data
            let r2 := process_request r1.1 now
              { collection := "GameVersion", action := "create",
                data := { game_id := some game_id, version := some version,
                          file_path := some s.2, file_hash := some file_hash } }
            (r2.1, s.1, .ok game_id version)
        | _ => (r1.1, fs, .err "failed_to_create_game")

/-- Models the body of `handle_update_game` after the developer gate
(developer_handler.py lines 213-317).  Note that the metadata-only branch
(no file supplied) issues the `Game`/`update` request without any check that
the caller is the author; the ownership check exists only on the
file-bearing branch. -/
def update_game_checked (st : DbState) (fs : FileSys) (now : String)
    (username : String) (data : DevData) : DbState × FileSys × DevResp :=
  let game_id := data.game_id.getD 0
  let version := data.version.getD ""
  let description := data.description.getD ""
  if !(truthyNat data.game_id && truthyStr data.version) then
    (st, fs, .err "missing_game_id_or_version")
  else if !truthyStr data.name then (st, fs, .err "missing_game_name")
  else if !truthyBytes data.file_data && !truthyStr data.file_name then
    let r := process_request st now
      { collection := "Game", action := "update",
        data := { game_id := some game_id, name := data.name,
                  description := some description,
                  current_version := some version } }
    match r.2 with
    | .ok => (r.1, fs, .ok game_id version)
    | .err reason => (r.1, fs, .err reason)
    | _ => (r.1, fs, .err "db_error")
  else
    let r1 := process_request st now
      { collection := "Game", action := "query", data := { game_id := some game_id } }
    match r1.2 with
    | .okGame game =>
      if game.author != username then (r1.1, fs, .err "not_game_owner")
      else
        let file_data? : Option (List Nat) :=
          if truthyBytes data.file_data then data.file_data
          else read_game_from_developer_folder fs (data.file_name.getD "")
        match file_data? with
        | none => (r1.1, fs, .err "file_not_found_in_developer_folder")
        | some file_data =>
          let file_hash := calculate_file_hash file_data
          let s := save_game_file fs game_id version file_data
          let r2 := process_request r1.1 now
            { collection := "GameVersion", action := "create",
              data := { game_id := some game_id, version := some version,
                        file_path := some s.2, file_hash := some file_hash } }
          if !r2.2.isOk then (r2.1, s.1, .err "failed_to_create_version")
          else
            let r3 := process_request r2.1 now
              { collection := "Game", action := "update",
                data := { game_id := some game_id, name := data.name,
                          description := some description,
                          current_version := some version } }
            if !r3.2.isOk then (r3.1, s.1, .err "failed_to_update_metadata")
            else (r3.1, s.1, .ok game_id version)
    | _ => (r1.1, fs, .err "game_not_found")

/-- Models `handle_update_game` (developer_handler.py lines 206-317): the
developer gate followed by `update_game_checked`. -/
def handle_update_game (st : DbState) (fs : FileSys) (now : String)
    (username : String) (data : DevData) : DbState × FileSys × DevResp :=
  if !check_developer st now username then (st, fs, .err "not_developer")
  else update_game_checked st fs now username data

/-- Models the body of `handle_remove_game` after the developer gate
(developer_handler.py lines 326-358): ownership check, then a soft delete
through `Game`/`delete` (files and GameVersion rows untouched). -/
def remove_game_checked (st : DbState) (now : String) (username : String)
    (data : DevData) : DbState × DevResp :=
  if !truthyNat data.game_id then (st, .err "missing_game_id")
  else
    let game_id := data.game_id.getD 0
    let r1 := process_request st now
      { collection := "Game", action := "query", data := { game_id := some game_id } }
    match r1.2 with
    | .okGame game =>
      if game.author != username then (r1.1, .err "not_game_owner")
      else
        let r2 := process_request r1.1 now
          { collection := "Game", action := "delete", data := { game_id := some game_id } }
        if r2.2.isOk then (r2.1, .okRemove)
        else (r2.1, .err "failed_to_delete_game")
    | _ => (r1.1, .err "game_not_found")

/-- Models `handle_remove_game` (developer_handler.py lines 319-358): the
developer gate followed by `remove_game_checked`. -/
def handle_remove_game (st : DbState) (now : String) (username : String)
    (data : DevData) : DbState × DevResp :=
  if !check_developer st now username then (st, .err "not_developer")
  else remove_game_checked st now username data

/-! ## Lobby service (server/lobby_server.py)

The lobby's global tables `g_client_sessions`, `g_rooms` and
`g_pending_invites` are Python dicts guarded by locks; they are modelled as
association lists with unique keys.  A session's socket and address are
abstracted away: a push to a session's socket is recorded as a pair of the
session's username and the message, and a direct reply on the
request-handling connection is recorded against the `caller` destination.
Each handler is a function from the lobby (and, where it forwards to
storage, the storage) state to the updated state plus the list of messages
sent, in order.  A missing caller session would raise a `KeyError` in Python
(caught by the outer loop); the theorems below always run handlers for
callers that hold a session. -/

/-- Updates the value at a key of an association list, appending the pair if
the key is absent (Python `d[k] = v`). -/
def aset {α β : Type} [BEq α] (l : List (α × β)) (k : α) (v : β) : List (α × β) :=
  match l with
  | [] => [(k, v)]
  | (k2, v2) :: rest => if k2 == k then (k, v) :: rest else (k2, v2) :: aset rest k v

/-- Removes a key from an association list (Python `del d[k]` / `d.pop(k)`). -/
def aremove {α β : Type} [BEq α] (l : List (α × β)) (k : α) : List (α × β) :=
  l.filter (fun e => !(e.1 == k))

/-- A pending invite object (an entry of `g_pending_invites[invitee]`). -/
structure Invite where
  from_user : String
  room_id : Nat
  game_name : Option String
deriving Repr, DecidableEq

/-- A room record (a value of `g_rooms`). -/
structure Room where
  name : String
  host : String
  players : List String
  status : String
  game_id : Option Nat
  is_public : Bool
  game_name : Option String
deriving Repr, DecidableEq

/-- The lobby's in-memory state: the session table (username to status), the
room table, the monotonic room-id counter and the pending-invite table. -/
structure LobbyState where
  sessions : List (String × String)
  rooms : List (Nat × Room)
  room_counter : Nat
  pending_invites : List (String × List Invite)
deriving Repr, DecidableEq

/-- A row of the public-room listing broadcast by `handle_list_rooms` and
`handle_game_over`. -/
structure RoomSummary where
  id : Nat
  name : String
  host : String
  players : Nat
  game_id : Option Nat
  game_name : Option String
deriving Repr, DecidableEq

/-- A message the lobby writes to some client socket: a request reply
(`{"status", "reason"}`), one of the push types, or a list payload. -/
inductive LobbyMsg where
  | response (status reason : String)
  | roomUpdate (room_id : Nat) (players : List String) (host : String)
      (game_id : Option Nat) (game_name : Option String) (is_public : Bool)
      (status : String)
  | kickedFromRoom (reason : String)
  | gameDeleted (game_id : Nat)
  | roomsList (rooms : List RoomSummary)
  | usersList (users : List (String × String))
deriving Repr, DecidableEq

/-- Where a lobby message goes: back on the requesting connection, or to the
socket of a logged-in session. -/
inductive Dest where
  | caller
  | user (username : String)
deriving Repr, DecidableEq

/-- Splits a character list on a separator, keeping empty chunks, as Python
`str.split(sep)` with an explicit separator. -/
def splitOnChar (sep : Char) : List Char → List (List Char)
  | [] => [[]]
  | c :: rest =>
    match splitOnChar sep rest with
    | [] => [[]]
    | grp :: grps => if c = sep then [] :: grp :: grps else (c :: grp) :: grps

/-- Parses an all-digit character list, accumulator-style. -/
def digitsAux : List Char → Nat → Option Nat
  | [], acc => some acc
  | c :: rest, acc =>
    if c.isDigit then digitsAux rest (acc * 10 + (c.toNat - 48)) else none

/-- Models Python `int(s)` restricted to non-empty digit strings (the
session statuses parsed here are always of that shape; the sign and
whitespace forms `int` also accepts never arise). -/
def digitsToNat? (l : List Char) : Option Nat :=
  if l.isEmpty then none else digitsAux l 0

/-- Extracts the room id from a session status of the form `in_room_<id>`
(Python: `status.startswith("in_room_")` then `int(status.split("_")[-1])`,
`None` on a parse failure).  The underscore separator is written
`Char.ofNat 95`. -/
def parseRoomId (status : String) : Option Nat :=
  if "in_room_".toList.isPrefixOf status.toList then
    digitsToNat? ((splitOnChar (Char.ofNat 95) status.toList).getLastD [])
  else none

/-- Sets a user's session status to `s` when the session exists (Python
`session = d.get(u); if session: session["status"] = s`). -/
def setStatusIfPresent (sessions : List (String × String)) (u s : String) :
    List (String × String) :=
  if (List.lookup u sessions).isSome then aset sessions u s else sessions

/-- Models `handle_logout` (lobby_server.py lines 208-268), the shared
logout/disconnect cleanup: pop the session, push the offline status to
storage, and — only when the user sat in an idle room — remove them from it,
deleting the room if it became empty and otherwise promoting the first
remaining player to host when the leaver was the host.  The final
`logout_successful` message goes to the leaving user's own socket. -/
def handle_logout (lst : LobbyState) (db : DbState) (now : String)
    (username : String) : LobbyState × DbState × List (String × LobbyMsg) :=
  match List.lookup username lst.sessions with
  | none => (lst, db, [])
  | some session_status =>
    let lst1 := { lst with sessions := aremove lst.sessions username }
    let db1 := (process_request db now
      { collection := "User", action := "update",
        data := { username := some username, status := some "offline" } }).1
    let lst2 :=
      match parseRoomId session_status with
      | none => lst1
      | some room_id =>
        match List.lookup room_id lst1.rooms with
        | none => lst1
        | some room =>
          if room.status == "idle" then
            let players2 := room.players.erase username
            if players2.isEmpty then
              { lst1 with rooms := aremove lst1.rooms room_id }
            else if room.host == username then
              let room2 := { room with players := players2, host := players2.headD "" }
              { lst1 with rooms := aset lst1.rooms room_id room2 }
            else
              let room2 := { room with players := players2 }
              { lst1 with rooms := aset lst1.rooms room_id room2 }
          else lst1
    (lst2, db1, [(username, .response "ok" "logout_successful")])

/-- Models `handle_leave_room` (lobby_server.py lines 472-547): when the
leaver is the host (or the room empties), push `KICKED_FROM_ROOM` to every
remaining player, reset their statuses (and the leaver's) to online and
delete the room; otherwise remove the leaver, reset their status and push a
`ROOM_UPDATE` to the remaining players. -/
def handle_leave_room (lst : LobbyState) (username : String) :
    LobbyState × List (String × LobbyMsg) :=
  let room_id? :=
    match List.lookup username lst.sessions with
    | some status => parseRoomId status
    | none => none
  match room_id? with
  | none => (lst, [])
  | some room_id =>
    match List.lookup room_id lst.rooms with
    | none => (lst, [])
    | some room =>
      let players2 := room.players.erase username
      if room.host == username || players2.isEmpty then
        let kicks := players2.filterMap (fun p =>
          if (List.lookup p lst.sessions).isSome then
            some (p, LobbyMsg.kickedFromRoom "The host has left the room.")
          else none)
        let sessions1 := setStatusIfPresent lst.sessions username "online"
        let sessions2 := players2.foldl (fun ss p => setStatusIfPresent ss p "online") sessions1
        let sessions3 := setStatusIfPresent sessions2 username "online"
        ({ lst with sessions := sessions3, rooms := aremove lst.rooms room_id }, kicks)
      else
        let sessions1 := setStatusIfPresent lst.sessions username "online"
        let updates := players2.filterMap (fun p =>
          if (List.lookup p sessions1).isSome then
            some (p, LobbyMsg.roomUpdate room_id players2 room.host room.game_id
              room.game_name room.is_public room.status)
          else none)
        let sessions2 := setStatusIfPresent sessions1 username "online"
        let room2 := { room with players := players2 }
        ({ lst with sessions := sessions2, rooms := aset lst.rooms room_id room2 }, updates)

/-- Models `handle_join_room` (lobby_server.py lines 391-470).  `room_id?`
is the parsed `room_id` field (`none` when absent or not an integer).  The
private-room invite check runs — and consumes any matching invites — before
the capacity check; the capacity check rejects with `room_is_full` once the
room holds 2 players; on success the caller is appended, their status set to
`in_room_<id>`, and a `ROOM_UPDATE` pushed to every member. -/
def handle_join_room (lst : LobbyState) (username : String)
    (room_id? : Option Nat) : LobbyState × List (Dest × LobbyMsg) :=
  match room_id? with
  | none => (lst, [(.caller, .response "error" "invalid_room_id")])
  | some room_id =>
    let sessionBusy :=
      match List.lookup username lst.sessions with
      | some status => status != "online"
      | none => false
    if sessionBusy then (lst, [(.caller, .response "error" "already_in_a_room")])
    else
      match List.lookup room_id lst.rooms with
      | none => (lst, [(.caller, .response "error" "room_not_found")])
      | some room =>
        if room.status != "idle" then
          (lst, [(.caller, .response "error" "room_is_playing")])
        else
          let user_invites := (List.lookup username lst.pending_invites).getD []
          let invited := user_invites.any (fun inv => inv.room_id == room_id)
          if !room.is_public && !invited && !room.players.contains username then
            (lst, [(.caller, .response "error" "room_is_private_not_invited")])
          else
            let remaining_invites := user_invites.filter (fun inv => !(inv.room_id == room_id))
            let lst1 :=
              if !room.is_public && invited then
                { lst with pending_invites := aset lst.pending_invites username remaining_invites }
              else lst
            if room.players.length ≥ 2 then
              (lst1, [(.caller, .response "error" "room_is_full")])
            else
              let players2 := room.players ++ [username]
              let lst2 := { lst1 with
                rooms := aset lst1.rooms room_id { room with players := players2 },
                sessions := aset lst1.sessions username ("in_room_" ++ toString room_id) }
              let updates := players2.filterMap (fun p =>
                if (List.lookup p lst2.sessions).isSome then
                  some (Dest.user p, LobbyMsg.roomUpdate room_id players2 room.host
                    room.game_id room.game_name room.is_public room.status)
                else none)
              (lst2, updates)

/-- Models `handle_game_over` (lobby_server.py lines 791-830): require the
room to exist with status playing (otherwise change nothing and send
nothing); then delete the room, restore the status of every listed player
that still has a session to online, and broadcast the refreshed public-room
and user lists to every session. -/
def handle_game_over (lst : LobbyState) (room_id : Nat) :
    LobbyState × List (String × LobbyMsg) :=
  match List.lookup room_id lst.rooms with
  | none => (lst, [])
  | some room =>
    if room.status != "playing" then (lst, [])
    else
      let player_list := room.players
      let rooms2 := aremove lst.rooms room_id
      let sessions2 := player_list.foldl (fun ss u => setStatusIfPresent ss u "online") lst.sessions
      let public_rooms := rooms2.filterMap (fun e =>
        if e.2.status == "idle" && e.2.is_public then
          some { id := e.1, name := e.2.name, host := e.2.host,
                 players := e.2.players.length, game_id := e.2.game_id,
                 game_name := e.2.game_name : RoomSummary }
        else none)
      let user_list := sessions2
      let msgs := sessions2.foldr (fun e acc =>
        (e.1, LobbyMsg.roomsList public_rooms) :: (e.1, LobbyMsg.usersList user_list) :: acc) []
      ({ lst with rooms := rooms2, sessions := sessions2 }, msgs)

/-- Models the `game_over` branch of the lobby's `handle_client` loop
(lobby_server.py lines 865-873): it runs before the login check, so the
logged-in username (if any) is ignored; a missing `room_id` is answered with
`missing_room_id`, otherwise `handle_game_over` runs and the caller gets
`game_over_processed`. -/
def dispatch_game_over (lst : LobbyState) (logged_in : Option String)
    (room_id? : Option Nat) : LobbyState × List (String × LobbyMsg) × LobbyMsg :=
  match logged_in, room_id? with
  | _, some room_id =>
    let r := handle_game_over lst room_id
    (r.1, r.2, .response "ok" "game_over_processed")
  | _, none => (lst, [], .response "error" "missing_room_id")

/-- Models the `remove_game` branch of the lobby's `handle_client` loop
(lobby_server.py lines 963-972): the handler's ok response is answered with
`{"status":"ok","reason":"game_removed"}` to the requesting client and an
error response is forwarded as-is; these are the only messages the lobby
sends for a remove_game request. -/
def dispatch_remove_game (resp : DevResp) : List (Dest × LobbyMsg) :=
  match resp with
  | .ok _ _ => [(.caller, .response "ok" "game_removed")]
  | .okRemove => [(.caller, .response "ok" "game_removed")]
  | .err reason => [(.caller, .response "error" reason)]

/-- Models `handle_list_rooms` (lobby_server.py lines 270-304): the summary
rows of the idle, public rooms. -/
def handle_list_rooms (lst : LobbyState) : List RoomSummary :=
  lst.rooms.filterMap (fun e =>
    if e.2.status == "idle" && e.2.is_public then
      some { id := e.1, name := e.2.name, host := e.2.host,
             players := e.2.players.length, game_id := e.2.game_id,
             game_name := e.2.game_name : RoomSummary }
    else none)

/-- Is a lobby message the `GAME_DELETED` push? -/
def LobbyMsg.isGameDeleted : LobbyMsg → Bool
  | .gameDeleted _ => true
  | _ => false

/-- Is a lobby message the `KICKED_FROM_ROOM` push? -/
def LobbyMsg.isKicked : LobbyMsg → Bool
  | .kickedFromRoom _ => true
  | _ => false

/-! ## Concrete example states

Small concrete storage and lobby states used to evaluate the handlers at
explicit inputs (counterexamples and witnesses). -/

/-- A storage state with no rows in any collection. -/
def emptyDb : DbState :=
  { usersFile := { users := [], next_id := 1 },
    gamesFile := { games := [], next_id := 1 },
    versionsFile := { game_versions := [], next_id := 1 },
    logsFile := { game_logs := [], next_id := 1 } }

/-- A stored user "dev" whose `is_developer` flag is set. -/
def devUser : StUser :=
  { id := 1, username := "dev", password_hash := hash_password "pw",
    status := "online", is_developer := true, created_at := "t0" }

/-- Storage holding just the developer "dev". -/
def devDb : DbState :=
  { emptyDb with usersFile := { users := [devUser], next_id := 2 } }

/-- A game row with id 1, authored by "dev". -/
def devGame : StGame :=
  { id := 1, name := "tetris", author := "dev", description := some "blocks",
    current_version := some "1", deleted := false, created_at := "t0",
    updated_at := "t0" }

/-- A version row for game 1, version "1". -/
def devGameVersion : StGameVersion :=
  { id := 1, game_id := 1, version := "1",
    file_path := "storage/games/1/v1/game.py", file_hash := some "h1",
    uploaded_at := "t0" }

/-- Storage holding the developer "dev", their game 1 and its version row. -/
def devGameDb : DbState :=
  { usersFile := { users := [devUser], next_id := 2 },
    gamesFile := { games := [devGame], next_id := 2 },
    versionsFile := { game_versions := [devGameVersion], next_id := 2 },
    logsFile := { game_logs := [], next_id := 1 } }

/-- A metadata-only update_game request renaming game 1 (no file_data, no
file_name). -/
def renameData : DevData :=
  { game_id := some 1, version := some "2", name := some "hacked" }

/-- An idle public room 100 hosted by alice with member bob. -/
def aliceBobRoom : Room :=
  { name := "fun", host := "alice", players := ["alice", "bob"],
    status := "idle", game_id := none, is_public := true, game_name := none }

/-- Lobby state for the host-disconnect scenario: alice hosts idle room 100,
bob is the other member, both sessions are `in_room_100`. -/
def discLobby : LobbyState :=
  { sessions := [("alice", "in_room_100"), ("bob", "in_room_100")],
    rooms := [(100, aliceBobRoom)],
    room_counter := 101,
    pending_invites := [] }

/-- An idle private full room 100 hosted by alice with member bob. -/
def privateFullRoom : Room :=
  { name := "fun", host := "alice", players := ["alice", "bob"],
    status := "idle", game_id := none, is_public := false, game_name := none }

/-- Lobby state for the full-private-room join scenarios: carol is online
and holds an invite to private room 100, which already has 2 players. -/
def inviteFullLobby : LobbyState :=
  { sessions := [("alice", "in_room_100"), ("bob", "in_room_100"), ("carol", "online")],
    rooms := [(100, privateFullRoom)],
    room_counter := 101,
    pending_invites := [("carol", [{ from_user := "alice", room_id := 100, game_name := none }])] }

/-- An idle private room 100 hosted by alice with a free slot. -/
def privateOpenRoom : Room :=
  { name := "fun", host := "alice", players := ["alice"],
    status := "idle", game_id := none, is_public := false, game_name := none }

/-- Lobby state with a one-player private room and an invited online bob. -/
def inviteOpenLobby : LobbyState :=
  { sessions := [("alice", "in_room_100"), ("bob", "online")],
    rooms := [(100, privateOpenRoom)],
    room_counter := 101,
    pending_invites := [("bob", [{ from_user := "alice", room_id := 100, game_name := none }])] }

/-- A playing room 200 with players alice and bob. -/
def playingRoom : Room :=
  { name := "fun", host := "alice", players := ["alice", "bob"],
    status := "playing", game_id := none, is_public := true, game_name := none }

/-- Lobby state with room 200 playing and both players in playing status. -/
def playingLobby : LobbyState :=
  { sessions := [("alice", "playing"), ("bob", "playing")],
    rooms := [(200, playingRoom)],
    room_counter := 201,
    pending_invites := [] }

/-- A stored game log for match "m123". -/
def storedLog : StGameLog :=
  { id := 1, matchid := some "m123", game_id := some 1,
    users := ["alice", "bob"], results := [], winner := some "P1",
    reason := some "time_up", start_time := some "t1", end_time := some "t2" }

/-- Storage holding one game log, for the duplicate-match-id scenario. -/
def logDb : DbState :=
  { emptyDb with logsFile := { game_logs := [storedLog], next_id := 2 } }

/-- A soft-deleted game row with id 2. -/
def deletedGame : StGame :=
  { id := 2, name := "snake", author := "dev", description := some "worm",
    current_version := some "1", deleted := true, created_at := "t0",
    updated_at := "t1" }

/-- Storage holding a live game 1 and a soft-deleted game 2. -/
def softDeleteDb : DbState :=
  { emptyDb with gamesFile := { games := [devGame, deletedGame], next_id := 3 } }

/-! ## Lemmas about the association-list operations -/

section AssocLemmas

variable {α β : Type} [BEq α] [LawfulBEq α]

lemma lookup_aset_self (l : List (α × β)) (k : α) (v : β) :
    List.lookup k (aset l k v) = some v := by
  induction l with
  | nil => simp [aset, List.lookup]
  | cons e rest ih =>
    obtain ⟨k2, v2⟩ := e
    by_cases h : k2 = k
    · subst h
      simp [aset, List.lookup]
    · have hb : (k2 == k) = false := beq_eq_false_iff_ne.mpr h
      have hb2 : (k == k2) = false := beq_eq_false_iff_ne.mpr (Ne.symm h)
      simp [aset, hb, List.lookup, hb2, ih]

lemma lookup_aset_ne (l : List (α × β)) (k k' : α) (v : β) (h : k' ≠ k) :
    List.lookup k' (aset l k v) = List.lookup k' l := by
  induction l with
  | nil => simp [aset, List.lookup, beq_eq_false_iff_ne.mpr h]
  | cons e rest ih =>
    obtain ⟨k2, v2⟩ := e
    by_cases h2 : k2 = k
    · subst h2
      simp [aset, List.lookup, beq_eq_false_iff_ne.mpr h]
    · simp [aset, beq_eq_false_iff_ne.mpr h2, List.lookup, ih]

lemma lookup_aremove_self (l : List (α × β)) (k : α) :
    List.lookup k (aremove l k) = none := by
  induction l with
  | nil => simp [aremove]
  | cons e rest ih =>
    obtain ⟨k2, v2⟩ := e
    by_cases h : k2 = k
    · subst h
      simpa [aremove, List.lookup] using ih
    · have hb2 : (k == k2) = false := beq_eq_false_iff_ne.mpr (Ne.symm h)
      simpa [aremove, beq_eq_false_iff_ne.mpr h, List.lookup, hb2] using ih

lemma lookup_aremove_ne (l : List (α × β)) (k k' : α) (h : k' ≠ k) :
    List.lookup k' (aremove l k) = List.lookup k' l := by
  induction l with
  | nil => simp [aremove]
  | cons e rest ih =>
    obtain ⟨k2, v2⟩ := e
    by_cases h2 : k2 = k
    · subst h2
      simpa [aremove, List.lookup, beq_eq_false_iff_ne.mpr h] using ih
    · by_cases h3 : k' = k2
      · subst h3
        simp [aremove, beq_eq_false_iff_ne.mpr h2, List.lookup]
      · have hb3 : (k' == k2) = false := beq_eq_false_iff_ne.mpr h3
        simpa [aremove, beq_eq_false_iff_ne.mpr h2, List.lookup, hb3] using ih

end AssocLemmas

lemma lookup_setStatusIfPresent_self (ss : List (String × String)) (u s : String)
    (h : (List.lookup u ss).isSome) :
    List.lookup u (setStatusIfPresent ss u s) = some s := by
  simp only [setStatusIfPresent, h, if_true]
  exact lookup_aset_self ss u s

lemma lookup_setStatusIfPresent_ne (ss : List (String × String)) (u u2 s : String)
    (h : u2 ≠ u) :
    List.lookup u2 (setStatusIfPresent ss u s) = List.lookup u2 ss := by
  simp only [setStatusIfPresent]
  split
  · exact lookup_aset_ne ss u u2 s h
  · rfl

lemma isSome_setStatusIfPresent (ss : List (String × String)) (u u2 s : String)
    (h : (List.lookup u2 ss).isSome) :
    (List.lookup u2 (setStatusIfPresent ss u s)).isSome := by
  by_cases he : u2 = u
  · subst he
    simp only [setStatusIfPresent, h, if_true]
    rw [lookup_aset_self]
    rfl
  · rwa [lookup_setStatusIfPresent_ne ss u u2 s he]

lemma lookup_foldl_setStatus_not_mem (ps : List String)
    (ss : List (String × String)) (u : String) (h : u ∉ ps) :
    List.lookup u (ps.foldl (fun acc p => setStatusIfPresent acc p "online") ss) =
      List.lookup u ss := by
  induction ps generalizing ss with
  | nil => rfl
  | cons p rest ih =>
    simp only [List.mem_cons, not_or] at h
    simp only [List.foldl_cons]
    rw [ih _ h.2, lookup_setStatusIfPresent_ne ss p u "online" h.1]

lemma lookup_foldl_setStatus_mem (ps : List String)
    (ss : List (String × String)) (u : String) (hmem : u ∈ ps)
    (hpres : (List.lookup u ss).isSome) :
    List.lookup u (ps.foldl (fun acc p => setStatusIfPresent acc p "online") ss) =
      some "online" := by
  induction ps generalizing ss with
  | nil => cases hmem
  | cons p rest ih =>
    simp only [List.foldl_cons]
    by_cases hrest : u ∈ rest
    · exact ih _ hrest (isSome_setStatusIfPresent ss p u "online" hpres)
    · have hup : u = p := by
        rcases List.mem_cons.mp hmem with h | h
        · exact h
        · exact absurd h hrest
      subst hup
      rw [lookup_foldl_setStatus_not_mem rest _ u hrest]
      exact lookup_setStatusIfPresent_self ss u "online" hpres

lemma find?_key_of_nodup {α : Type} (key : α → Nat) (l : List α) (g : α)
    (hnodup : (l.map key).Nodup) (hmem : g ∈ l) :
    l.find? (fun x => key x == key g) = some g := by
  induction l with
  | nil => cases hmem
  | cons x rest ih =>
    simp only [List.map_cons, List.nodup_cons] at hnodup
    rcases List.mem_cons.mp hmem with h | h
    · subst h
      simp [List.find?]
    · have hne : key x ≠ key g := by
        intro he
        exact hnodup.1 (he ▸ List.mem_map_of_mem key h)
      simp only [List.find?, beq_eq_false_iff_ne.mpr hne]
      exact ih hnodup.2 h

/-! ## Theorems -/

/-- C7: for every received frame the receiver reads the 4-byte big-endian
length header and rejects length 0 or any length above 65536 as a protocol
violation, closing the connection and returning no message; for a length in
1..65536 it reads and returns exactly that many body bytes; and the sender
refuses (raises) for any body longer than 65536 bytes. -/
theorem C7_framing_bounds :
    (∀ body : List Nat, body.length > MAX_MSG_SIZE → send_msg body = none) ∧
    (∀ body rest : List Nat, 0 < body.length → body.length ≤ MAX_MSG_SIZE →
      send_msg body = some (packLen body.length ++ body) ∧
      recv_msg (packLen body.length ++ body ++ rest) = .msg body rest) ∧
    (∀ n : Nat, ∀ rest : List Nat, n < 4294967296 →
      (n = 0 ∨ n > MAX_MSG_SIZE) →
      recv_msg (packLen n ++ rest) = .violationClosed) := by
  refine ⟨fun body h => by simp [send_msg, h], ?_, ?_⟩
  · intro body rest hpos hle
    constructor
    · simp [send_msg]
      omega
    · have hlen4 : (packLen body.length).length = 4 := rfl
      have h32 : body.length < 4294967296 := by
        simp only [MAX_MSG_SIZE] at hle; omega
      simp only [recv_msg, List.append_assoc]
      rw [show (4 : Nat) = (packLen body.length).length from rfl,
        recv_all_append (packLen body.length) (body ++ rest)]
      simp only [unpackLen_packLen body.length h32]
      rw [if_neg (by push_neg; exact ⟨hpos, hle⟩), recv_all_append body rest]
  · intro n rest h32 hbad
    have hlen4 : (packLen n).length = 4 := rfl
    simp only [recv_msg]
    rw [show (4 : Nat) = (packLen n).length from rfl, recv_all_append (packLen n) rest]
    simp only [unpackLen_packLen n h32]
    rw [if_pos]
    simp only [MAX_MSG_SIZE] at hbad ⊢
    omega

/-- Witness for C7: instantiates every hypothesis of `C7_framing_bounds` at
concrete inputs: an oversized 65537-byte body is refused by the sender, the
one-byte body `[42]` round-trips through a frame, and header lengths 0 and
65537 are rejected by the receiver. -/
theorem C7_framing_bounds_witness :
    send_msg (List.replicate 65537 42) = none ∧
    recv_msg (packLen 1 ++ [42] ++ [9, 9]) = .msg [42] [9, 9] ∧
    recv_msg (packLen 0 ++ [1, 2, 3]) = .violationClosed ∧
    recv_msg (packLen 65537 ++ [1, 2, 3]) = .violationClosed := by
  refine ⟨C7_framing_bounds.1 (List.replicate 65537 42)
    (by simp only [List.length_replicate, MAX_MSG_SIZE]; omega), ?_, ?_, ?_⟩
  · have h := (C7_framing_bounds.2.1 [42] [9, 9] (by decide) (by decide)).2
    simpa using h
  · exact C7_framing_bounds.2.2 0 [1, 2, 3] (by decide) (Or.inl rfl)
  · exact C7_framing_bounds.2.2 65537 [1, 2, 3] (by decide) (Or.inr (by decide))

/-- C1: the claim says the storage dispatcher serves User get requests and
that the freshly-fetched developer check succeeds for a caller whose stored
`is_developer` flag is true.  On the code it fails: at the concrete state
`devDb`, whose user "dev" has `is_developer = true`, the `User`/`get`
request that `check_developer` issues is answered with an unknown-action
error (the dispatcher has no `get` branch for User), `check_developer`
therefore returns false, and all three developer actions are rejected with
`not_developer` even for this genuine developer. -/
theorem C1_user_get_not_dispatched :
    (get_user devDb.usersFile "dev").map (fun u => u.is_developer) = some true ∧
    process_request devDb "T"
        { collection := "User", action := "get", data := { username := some "dev" } } =
      (devDb, .err "Unknown action \x27get\x27 for User") ∧
    check_developer devDb "T" "dev" = false ∧
    (handle_upload_game devDb [] "T" "dev"
        { name := some "tetris", version := some "1", file_data := some [80] }).2.2 =
      .err "not_developer" ∧
    (handle_update_game devDb [] "T" "dev"
        { game_id := some 1, version := some "1", name := some "tetris" }).2.2 =
      .err "not_developer" ∧
    (handle_remove_game devDb "T" "dev" { game_id := some 1 }).2 =
      .err "not_developer" := by
  decide

/-- C9: a GameLog create request whose match id equals the match id of an
already-stored log is answered `{status:error, reason:gamelog_already_exists}`
and the stored collection of game logs is unchanged (the whole storage state
is returned as it was: no row added, `next_id` not advanced). -/
theorem C9_duplicate_gamelog_rejected (st : DbState) (now : String)
    (data : DbData) (m : String) (hmid : data.matchid = some m)
    (hex : ∃ log ∈ st.logsFile.game_logs, log.matchid = some m) :
    process_request st now { collection := "GameLog", action := "create", data := data } =
      (st, .err "gamelog_already_exists") := by
  have hdisp : process_request st now
      { collection := "GameLog", action := "create", data := data } =
      (if data == DbData.empty then (st, DbResp.err "missing_gamelog_data")
       else
        let r := create_game_log st.logsFile data.matchid data.game_id
          (data.users.getD []) (data.results.getD []) data.winner data.reason
          data.start_time data.end_time
        if r.2 then ({ st with logsFile := r.1 }, DbResp.ok)
        else ({ st with logsFile := r.1 }, DbResp.err "gamelog_already_exists")) := rfl
  have hne : (data == DbData.empty) = false := by
    refine beq_eq_false_iff_ne.mpr ?_
    intro h
    rw [h] at hmid
    simp [DbData.empty] at hmid
  have hany : st.logsFile.game_logs.any (fun log => log.matchid == data.matchid) = true := by
    rw [List.any_eq_true]
    obtain ⟨log, hmem, hlogm⟩ := hex
    exact ⟨log, hmem, by rw [hlogm, hmid]; exact beq_self_eq_true (some m)⟩
  rw [hdisp]
  simp only [hne, Bool.false_eq_true, if_false, create_game_log, hany, if_true]

/-- Witness for C9: at the concrete storage state `logDb`, which already
holds a log for match "m123", a second create for "m123" is rejected with
`gamelog_already_exists` and the state is unchanged. -/
theorem C9_duplicate_gamelog_rejected_witness :
    process_request logDb "T"
        { collection := "GameLog", action := "create",
          data := { matchid := some "m123", users := some ["alice", "bob"] } } =
      (logDb, .err "gamelog_already_exists") :=
  C9_duplicate_gamelog_rejected logDb "T"
    { matchid := some "m123", users := some ["alice", "bob"] } "m123" rfl
    (by decide)

/-- C8: a game whose deleted flag is set appears in no list_games response
and in no search_games response for any query — both at the level of the
collection operations and of the dispatched storage requests — while a
Game query for its id (get_game_info) still returns the game record. -/
theorem C8_soft_delete_visibility (st : DbState) (now : String) (g : StGame)
    (hmem : g ∈ st.gamesFile.games) (hdel : g.deleted = true)
    (hnodup : (st.gamesFile.games.map (fun x => x.id)).Nodup)
    (hid : g.id ≠ 0) :
    g ∉ list_all_games st.gamesFile ∧
    (∀ q : String, g ∉ search_games st.gamesFile q) ∧
    process_request st now { collection := "Game", action := "list", data := {} } =
      (st, .okGames (list_all_games st.gamesFile)) ∧
    (∀ q : String, q.isEmpty = false →
      process_request st now
          { collection := "Game", action := "search", data := { query := some q } } =
        (st, .okGames (search_games st.gamesFile q))) ∧
    process_request st now
        { collection := "Game", action := "query", data := { game_id := some g.id } } =
      (st, .okGame g) := by
  have hget : get_game st.gamesFile g.id = some g := by
    show st.gamesFile.games.find? (fun x => x.id == g.id) = some g
    exact find?_key_of_nodup (fun x => x.id) st.gamesFile.games g hnodup hmem
  refine ⟨?_, ?_, rfl, ?_, ?_⟩
  · intro habs
    rw [list_all_games, mem_sortDescBy] at habs
    have := (List.mem_filter.mp habs).2
    rw [hdel] at this
    simp at this
  · intro q habs
    rw [search_games, mem_sortDescBy] at habs
    have := (List.mem_filter.mp habs).2
    rw [Bool.and_eq_true] at this
    have h1 := this.1
    rw [hdel] at h1
    simp at h1
  · intro q hq
    have hdisp : process_request st now
        { collection := "Game", action := "search", data := { query := some q } } =
        (if !truthyStr (some (((some q).getD ""))) then (st, DbResp.err "missing_query")
         else (st, DbResp.okGames (search_games st.gamesFile ((some q).getD "")))) := rfl
    rw [hdisp]
    simp [truthyStr, hq]
  · have hdisp : process_request st now
        { collection := "Game", action := "query", data := { game_id := some g.id } } =
        (if truthyNat (some g.id) then
          match get_game st.gamesFile ((some g.id).getD 0) with
          | some game => (st, DbResp.okGame game)
          | none => (st, DbResp.err "game_not_found")
         else (st, DbResp.err "missing_game_id")) := rfl
    rw [hdisp]
    have ht : truthyNat (some g.id) = true := by
      simp [truthyNat, hid]
    rw [ht, if_pos rfl]
    simp only [Option.getD_some, hget]

/-- Witness for C8: at the concrete storage state `softDeleteDb` the
soft-deleted game 2 is absent from the listing and from a search for
"snake" (its own name), yet a Game query for id 2 returns its record. -/
theorem C8_soft_delete_visibility_witness :
    deletedGame ∉ list_all_games softDeleteDb.gamesFile ∧
    deletedGame ∉ search_games softDeleteDb.gamesFile "snake" ∧
    process_request softDeleteDb "T"
        { collection := "Game", action := "query",
          data := { game_id := some deletedGame.id } } =
      (softDeleteDb, .okGame deletedGame) := by
  obtain ⟨h1, h2, _, _, h5⟩ := C8_soft_delete_visibility softDeleteDb "T" deletedGame
    (by decide) rfl (by decide) (by decide)
  exact ⟨h1, h2 "snake", h5⟩

/-- C6: a lobby game_over request (served before the login check, hence
without authentication) deletes the room and restores every listed player
that still holds a session to online when the room exists with status
playing; when the room is missing or not playing, the session and room
tables are left entirely unchanged (and nothing is broadcast). -/
theorem C6_game_over_effects (lst : LobbyState) (room_id : Nat) :
    (List.lookup room_id lst.rooms = none → handle_game_over lst room_id = (lst, [])) ∧
    (∀ room, List.lookup room_id lst.rooms = some room → room.status ≠ "playing" →
      handle_game_over lst room_id = (lst, [])) ∧
    (∀ room, List.lookup room_id lst.rooms = some room → room.status = "playing" →
      List.lookup room_id (handle_game_over lst room_id).1.rooms = none ∧
      ∀ u ∈ room.players, (List.lookup u lst.sessions).isSome = true →
        List.lookup u (handle_game_over lst room_id).1.sessions = some "online") := by
  refine ⟨?_, ?_, ?_⟩
  · intro h
    simp only [handle_game_over, h]
  · intro room h hne
    simp only [handle_game_over, h]
    rw [if_pos (bne_iff_ne.mpr hne)]
  · intro room h hpl
    have hb : (room.status != "playing") = false := by
      rw [hpl]
      rfl
    constructor
    · simp only [handle_game_over, h, hb, Bool.false_eq_true, if_false]
      exact lookup_aremove_self lst.rooms room_id
    · intro u hu hpres
      simp only [handle_game_over, h, hb, Bool.false_eq_true, if_false]
      exact lookup_foldl_setStatus_mem room.players lst.sessions u hu hpres

/-- Witness for C6: at the concrete lobby state `playingLobby`, game_over
for the playing room 200 deletes the room and restores bob to online, while
game_over for the missing room 999 and for an idle room leave the state
unchanged (the idle case is exercised on the post-game_over state, where
room 200 no longer exists). -/
theorem C6_game_over_effects_witness :
    List.lookup 200 (handle_game_over playingLobby 200).1.rooms = none ∧
    List.lookup "bob" (handle_game_over playingLobby 200).1.sessions = some "online" ∧
    handle_game_over playingLobby 999 = (playingLobby, []) := by
  have h3 := (C6_game_over_effects playingLobby 999).1 (by decide)
  obtain ⟨h1, h2⟩ := (C6_game_over_effects playingLobby 200).2.2 playingRoom rfl rfl
  exact ⟨h1, h2 "bob" (by decide) (by decide), h3⟩

/-- C10: a join_room by a user holding a matching invite to a private idle
room that already has 2 players is rejected with `room_is_full`, yet the
invite was already removed by the (earlier) private-room check: the room and
session tables are untouched, but the caller's pending invites for that room
are gone, so the failed join still consumed the invite. -/
theorem C10_invite_consumed_before_capacity (lst : LobbyState)
    (username : String) (room_id : Nat) (room : Room)
    (hsess : List.lookup username lst.sessions = some "online")
    (hroom : List.lookup room_id lst.rooms = some room)
    (hidle : room.status = "idle")
    (hpriv : room.is_public = false)
    (hfull : room.players.length = 2)
    (hinv : ((List.lookup username lst.pending_invites).getD []).any
      (fun inv => inv.room_id == room_id) = true) :
    (handle_join_room lst username (some room_id)).2 =
      [(.caller, .response "error" "room_is_full")] ∧
    (handle_join_room lst username (some room_id)).1.rooms = lst.rooms ∧
    (handle_join_room lst username (some room_id)).1.sessions = lst.sessions ∧
    List.lookup username (handle_join_room lst username (some room_id)).1.pending_invites =
      some (((List.lookup username lst.pending_invites).getD []).filter
        (fun inv => !(inv.room_id == room_id))) ∧
    (∀ inv ∈ (List.lookup username
        (handle_join_room lst username (some room_id)).1.pending_invites).getD [],
      inv.room_id ≠ room_id) := by
  have hb : (room.status != "idle") = false := by rw [hidle]; rfl
  have heval : handle_join_room lst username (some room_id) =
      (LobbyState.mk lst.sessions lst.rooms lst.room_counter
        (aset lst.pending_invites username
          (((List.lookup username lst.pending_invites).getD []).filter
            (fun inv => !(inv.room_id == room_id)))),
       [(.caller, .response "error" "room_is_full")]) := by
    simp only [handle_join_room, hsess, hroom, hb, hpriv, hinv, hfull]
    simp
  rw [heval]
  have hlk : List.lookup username (aset lst.pending_invites username
      (((List.lookup username lst.pending_invites).getD []).filter
        (fun inv => !(inv.room_id == room_id)))) =
      some (((List.lookup username lst.pending_invites).getD []).filter
        (fun inv => !(inv.room_id == room_id))) :=
    lookup_aset_self lst.pending_invites username _
  refine ⟨rfl, rfl, rfl, hlk, ?_⟩
  intro inv hmem
  rw [hlk] at hmem
  simp only [Option.getD_some] at hmem
  have := (List.mem_filter.mp hmem).2
  intro habs
  rw [habs] at this
  simp at this

/-- Witness for C10: at the concrete lobby state `inviteFullLobby`, carol
holds an invite to the full private room 100; her join is rejected with
`room_is_full`, rooms and sessions are unchanged, and her invite list for
room 100 is now empty. -/
theorem C10_invite_consumed_before_capacity_witness :
    (handle_join_room inviteFullLobby "carol" (some 100)).2 =
      [(.caller, .response "error" "room_is_full")] ∧
    (handle_join_room inviteFullLobby "carol" (some 100)).1.rooms =
      inviteFullLobby.rooms ∧
    (handle_join_room inviteFullLobby "carol" (some 100)).1.sessions =
      inviteFullLobby.sessions ∧
    List.lookup "carol"
        (handle_join_room inviteFullLobby "carol" (some 100)).1.pending_invites =
      some [] := by
  obtain ⟨h1, h2, h3, h4, _⟩ := C10_invite_consumed_before_capacity inviteFullLobby
    "carol" 100 privateFullRoom rfl rfl rfl rfl rfl (by decide)
  exact ⟨h1, h2, h3, h4⟩

/-- C5 counterexample: the claim states that a caller holding a matching
invite succeeds in joining.  At the concrete state `inviteFullLobby`, carol
holds a matching invite to idle private room 100, yet her join is rejected
(with `room_is_full`, because the invite check precedes the capacity check)
and she is not appended to the player list. -/
theorem C5_counterexample_invited_join_fails :
    ((List.lookup "carol" inviteFullLobby.pending_invites).getD []).any
      (fun inv => inv.room_id == 100) = true ∧
    (List.lookup 100 inviteFullLobby.rooms).map (fun r => r.status) = some "idle" ∧
    (handle_join_room inviteFullLobby "carol" (some 100)).2 =
      [(.caller, .response "error" "room_is_full")] ∧
    (List.lookup 100 (handle_join_room inviteFullLobby "carol" (some 100)).1.rooms).map
      (fun r => r.players) = some ["alice", "bob"] := by
  decide

/-- C5 as amended: on a join_room for an idle room, (1) a room already
holding 2 players rejects with `room_is_full` provided the private gate
passes (the room is public, or the caller holds a matching invite, or is
already listed) — a full private room without invite is instead rejected
with `room_is_private_not_invited`, covered by (2), which applies at any
capacity; and (3) a caller holding a matching invite joins successfully
only when the room still has a free slot, in which case they are appended,
their status becomes `in_room_<id>`, and every pending invite of theirs for
that room is consumed, so it cannot authorize a later join. -/
theorem C5_join_room_amended (lst : LobbyState) (username : String)
    (room_id : Nat) (room : Room)
    (hsess : List.lookup username lst.sessions = some "online")
    (hroom : List.lookup room_id lst.rooms = some room)
    (hidle : room.status = "idle") :
    (2 ≤ room.players.length →
      (room.is_public = true ∨
       ((List.lookup username lst.pending_invites).getD []).any
         (fun inv => inv.room_id == room_id) = true ∨
       room.players.contains username = true) →
      (handle_join_room lst username (some room_id)).2 =
        [(.caller, .response "error" "room_is_full")] ∧
      (handle_join_room lst username (some room_id)).1.rooms = lst.rooms) ∧
    (room.is_public = false →
      ((List.lookup username lst.pending_invites).getD []).any
        (fun inv => inv.room_id == room_id) = false →
      room.players.contains username = false →
      handle_join_room lst username (some room_id) =
        (lst, [(.caller, .response "error" "room_is_private_not_invited")])) ∧
    (room.is_public = false →
      ((List.lookup username lst.pending_invites).getD []).any
        (fun inv => inv.room_id == room_id) = true →
      room.players.length < 2 →
      List.lookup room_id (handle_join_room lst username (some room_id)).1.rooms =
        some { room with players := room.players ++ [username] } ∧
      List.lookup username (handle_join_room lst username (some room_id)).1.sessions =
        some ("in_room_" ++ toString room_id) ∧
      (∀ inv ∈ (List.lookup username
          (handle_join_room lst username (some room_id)).1.pending_invites).getD [],
        inv.room_id ≠ room_id)) := by
  have hb : (room.status != "idle") = false := by rw [hidle]; rfl
  refine ⟨?_, ?_, ?_⟩
  · intro h2le hgate
    have hcond : (room.players.length ≥ 2) = True := eq_true h2le
    rcases hgate with hpub | hinv | hmem
    · have heval : handle_join_room lst username (some room_id) =
          (lst, [(.caller, .response "error" "room_is_full")]) := by
        simp only [handle_join_room, hsess, hroom, hb, hpub, hcond]
        simp
      rw [heval]
      exact ⟨rfl, rfl⟩
    · by_cases hpub : room.is_public = true
      · have heval : handle_join_room lst username (some room_id) =
            (lst, [(.caller, .response "error" "room_is_full")]) := by
          simp only [handle_join_room, hsess, hroom, hb, hpub, hcond]
          simp
        rw [heval]
        exact ⟨rfl, rfl⟩
      · have hpub2 : room.is_public = false := by
          revert hpub
          cases room.is_public <;> simp
        have heval : handle_join_room lst username (some room_id) =
            (LobbyState.mk lst.sessions lst.rooms lst.room_counter
              (aset lst.pending_invites username
                (((List.lookup username lst.pending_invites).getD []).filter
                  (fun inv => !(inv.room_id == room_id)))),
             [(.caller, .response "error" "room_is_full")]) := by
          simp only [handle_join_room, hsess, hroom, hb, hpub2, hinv, hcond]
          simp
        rw [heval]
        exact ⟨rfl, rfl⟩
    · by_cases hpub : room.is_public = true
      · have heval : handle_join_room lst username (some room_id) =
            (lst, [(.caller, .response "error" "room_is_full")]) := by
          simp only [handle_join_room, hsess, hroom, hb, hpub, hcond]
          simp
        rw [heval]
        exact ⟨rfl, rfl⟩
      · have hpub2 : room.is_public = false := by
          revert hpub
          cases room.is_public <;> simp
        by_cases hinv : ((List.lookup username lst.pending_invites).getD []).any
            (fun inv => inv.room_id == room_id) = true
        · have heval : handle_join_room lst username (some room_id) =
              (LobbyState.mk lst.sessions lst.rooms lst.room_counter
                (aset lst.pending_invites username
                  (((List.lookup username lst.pending_invites).getD []).filter
                    (fun inv => !(inv.room_id == room_id)))),
               [(.caller, .response "error" "room_is_full")]) := by
            simp only [handle_join_room, hsess, hroom, hb, hpub2, hinv, hcond]
            simp
          rw [heval]
          exact ⟨rfl, rfl⟩
        · have hinv2 : ((List.lookup username lst.pending_invites).getD []).any
              (fun inv => inv.room_id == room_id) = false := by
            revert hinv
            cases ((List.lookup username lst.pending_invites).getD []).any
              (fun inv => inv.room_id == room_id) <;> simp
          have heval : handle_join_room lst username (some room_id) =
              (lst, [(.caller, .response "error" "room_is_full")]) := by
            simp only [handle_join_room, hsess, hroom, hb, hpub2, hinv2, hmem, hcond]
            simp
          rw [heval]
          exact ⟨rfl, rfl⟩
  · intro hpriv hnoinv hnotmem
    simp only [handle_join_room, hsess, hroom, hb, hpriv, hnoinv, hnotmem]
    simp
  · intro hpriv hinv hlt
    have hcond : (room.players.length ≥ 2) = False := eq_false (not_le.mpr hlt)
    have heval1 : (handle_join_room lst username (some room_id)).1 =
        LobbyState.mk
          (aset lst.sessions username ("in_room_" ++ toString room_id))
          (aset lst.rooms room_id { room with players := room.players ++ [username] })
          lst.room_counter
          (aset lst.pending_invites username
            (((List.lookup username lst.pending_invites).getD []).filter
              (fun inv => !(inv.room_id == room_id)))) := by
      simp only [handle_join_room, hsess, hroom, hb, hpriv, hinv, hcond]
      simp
    rw [heval1]
    refine ⟨lookup_aset_self _ _ _, lookup_aset_self _ _ _, ?_⟩
    intro inv hmem
    rw [lookup_aset_self] at hmem
    simp only [Option.getD_some] at hmem
    have := (List.mem_filter.mp hmem).2
    intro habs
    rw [habs] at this
    simp at this

/-- Witness for C5 (amended): at `inviteOpenLobby`, the invited bob joins
the one-slot private room 100: he is appended, his status becomes
`in_room_100` and his invites for room 100 are consumed; at
`inviteFullLobby`, carol (invited, room full) is rejected with
`room_is_full`, and an uninvited join of the open private room is rejected
with `room_is_private_not_invited`. -/
theorem C5_join_room_amended_witness :
    List.lookup 100 (handle_join_room inviteOpenLobby "bob" (some 100)).1.rooms =
      some { privateOpenRoom with players := ["alice", "bob"] } ∧
    List.lookup "bob" (handle_join_room inviteOpenLobby "bob" (some 100)).1.sessions =
      some "in_room_100" ∧
    (handle_join_room inviteFullLobby "carol" (some 100)).2 =
      [(.caller, .response "error" "room_is_full")] := by
  obtain ⟨h1, h2, _⟩ :=
    (C5_join_room_amended inviteOpenLobby "bob" 100 privateOpenRoom rfl rfl rfl).2.2
      rfl (by decide) (by decide)
  have h3 := ((C5_join_room_amended inviteFullLobby "carol" 100 privateFullRoom
    rfl rfl rfl).1 (by decide) (Or.inr (Or.inl (by decide)))).1
  exact ⟨h1, h2, h3⟩

/-- C2 counterexample: the disconnect cleanup path is `handle_logout`
(invoked from the client thread's finally block), not `handle_leave_room`.
At the concrete state `discLobby`, when host alice's connection drops, no
`KICKED_FROM_ROOM` is sent, bob's status stays `in_room_100` (not reset to
online), the room is not deleted — bob is promoted to host — and room 100
still appears in a subsequent list_rooms. -/
theorem C2_counterexample_host_disconnect_promotes :
    (handle_logout discLobby emptyDb "T" "alice").2.2.all
      (fun m => !m.2.isKicked) = true ∧
    List.lookup "bob" (handle_logout discLobby emptyDb "T" "alice").1.sessions =
      some "in_room_100" ∧
    (List.lookup 100 (handle_logout discLobby emptyDb "T" "alice").1.rooms).map
      (fun r => r.host) = some "bob" ∧
    (handle_list_rooms (handle_logout discLobby emptyDb "T" "alice").1).map
      (fun r => r.id) = [100] := by
  decide

/-- C2 as amended: when the host of an idle room that still contains
another player *disconnects*, the lobby removes the host and promotes the
first remaining player to host, keeping the room (no `KICKED_FROM_ROOM` is
sent; the only message is the host's own logout confirmation); the
claimed kick-reset-delete sequence happens only on an explicit leave_room
request by the host: then every remaining player with a session receives
`KICKED_FROM_ROOM`, their statuses are reset to online, and the room is
deleted. -/
theorem C2_host_disconnect_vs_leave (lst : LobbyState) (db : DbState)
    (now username status : String) (room_id : Nat) (room : Room)
    (hsess : List.lookup username lst.sessions = some status)
    (hparse : parseRoomId status = some room_id)
    (hroom : List.lookup room_id lst.rooms = some room)
    (hidle : room.status = "idle")
    (hhost : room.host = username)
    (hremain : room.players.erase username ≠ [])
    (hnd : username ∉ room.players.erase username) :
    (List.lookup room_id (handle_logout lst db now username).1.rooms =
      some { room with players := room.players.erase username,
                       host := (room.players.erase username).headD "" } ∧
     (handle_logout lst db now username).2.2 =
       [(username, .response "ok" "logout_successful")]) ∧
    (List.lookup room_id (handle_leave_room lst username).1.rooms = none ∧
     (handle_leave_room lst username).2 =
       (room.players.erase username).filterMap (fun p =>
         if (List.lookup p lst.sessions).isSome then
           some (p, LobbyMsg.kickedFromRoom "The host has left the room.")
         else none) ∧
     (∀ p ∈ room.players.erase username, (List.lookup p lst.sessions).isSome = true →
       List.lookup p (handle_leave_room lst username).1.sessions = some "online")) := by
  have hst : (room.status == "idle") = true := by rw [hidle]; rfl
  have hhostb : (room.host == username) = true := by
    rw [hhost]
    exact beq_self_eq_true username
  have hne : (room.players.erase username).isEmpty = false := by
    cases h2 : room.players.erase username with
    | nil => exact absurd h2 hremain
    | cons a t => rfl
  constructor
  · have heval1 : (handle_logout lst db now username).1 =
        LobbyState.mk (aremove lst.sessions username)
          (aset lst.rooms room_id
            { room with players := room.players.erase username,
                        host := (room.players.erase username).headD "" })
          lst.room_counter lst.pending_invites := by
      simp only [handle_logout, hsess, hparse, hroom, hst, hne, hhostb]
      simp
    have heval2 : (handle_logout lst db now username).2.2 =
        [(username, .response "ok" "logout_successful")] := by
      simp only [handle_logout, hsess]
    rw [heval1, heval2]
    exact ⟨lookup_aset_self _ _ _, rfl⟩
  · have heval1 : (handle_leave_room lst username).1 =
        LobbyState.mk
          (setStatusIfPresent
            ((room.players.erase username).foldl
              (fun ss p => setStatusIfPresent ss p "online")
              (setStatusIfPresent lst.sessions username "online"))
            username "online")
          (aremove lst.rooms room_id) lst.room_counter lst.pending_invites := by
      simp only [handle_leave_room, hsess, hparse, hroom, hhostb]
      simp
    have heval2 : (handle_leave_room lst username).2 =
        (room.players.erase username).filterMap (fun p =>
          if (List.lookup p lst.sessions).isSome then
            some (p, LobbyMsg.kickedFromRoom "The host has left the room.")
          else none) := by
      simp only [handle_leave_room, hsess, hparse, hroom, hhostb]
      simp
    refine ⟨by rw [heval1]; exact lookup_aremove_self _ _, heval2, ?_⟩
    intro p hp hpres
    have hpne : p ≠ username := fun h => hnd (h ▸ hp)
    rw [heval1]
    show List.lookup p (setStatusIfPresent _ username "online") = some "online"
    rw [lookup_setStatusIfPresent_ne _ _ _ _ hpne]
    refine lookup_foldl_setStatus_mem _ _ p hp ?_
    rw [lookup_setStatusIfPresent_ne _ _ _ _ hpne]
    exact hpres

/-- Witness for C2 (amended): at the concrete state `discLobby`, alice's
disconnect leaves room 100 with bob promoted to host and only the logout
confirmation sent, while an explicit leave_room by alice deletes room 100,
kicks bob and resets his status to online. -/
theorem C2_host_disconnect_vs_leave_witness :
    List.lookup 100 (handle_logout discLobby emptyDb "T" "alice").1.rooms =
      some { aliceBobRoom with players := ["bob"], host := "bob" } ∧
    List.lookup 100 (handle_leave_room discLobby "alice").1.rooms = none ∧
    (handle_leave_room discLobby "alice").2 =
      [("bob", LobbyMsg.kickedFromRoom "The host has left the room.")] ∧
    List.lookup "bob" (handle_leave_room discLobby "alice").1.sessions =
      some "online" := by
  obtain ⟨⟨h1, _⟩, h2, h3, h4⟩ := C2_host_disconnect_vs_leave discLobby emptyDb
    "T" "alice" "in_room_100" 100 aliceBobRoom rfl (by decide) rfl rfl rfl
    (by decide) (by decide)
  exact ⟨h1, h2, by rw [h3]; decide, h4 "bob" (by decide) (by decide)⟩

/-- C3: the claim says any update_game by a non-author is rejected with
`not_game_owner` and leaves the game unchanged.  On the code, at the
concrete state `devGameDb` (game 1 authored by "dev"), non-author mallory's
metadata-only update is rejected with `not_developer` instead (the
developer pre-check's User/get query is unsupported, see C1); and the
handler body that runs after the developer gate performs the metadata-only
update with no ownership check at all: run for mallory, it succeeds and
mutates game 1's name and current_version. -/
theorem C3_update_game_ownership_gap :
    handle_update_game devGameDb [] "T" "mallory" renameData =
      (devGameDb, [], .err "not_developer") ∧
    devGame.author ≠ "mallory" ∧
    (update_game_checked devGameDb [] "T" "mallory" renameData).2.2 = .ok 1 "2" ∧
    (get_game (update_game_checked devGameDb [] "T" "mallory" renameData).1.gamesFile 1).map
      (fun g => (g.name, g.current_version)) = some ("hacked", some "2") := by
  decide

/-- C4: the claim says a successful remove_game by the author sets the
deleted flag, keeps GameVersion rows and files, and broadcasts
`GAME_DELETED` to every session.  On the code, at the concrete state
`devGameDb`: the dispatched handler never succeeds — even the stored
developer author "dev" is rejected with `not_developer` (see C1); the
post-gate body does soft-delete correctly (flag set, game and version rows
kept, and the handler never touches the file system); but the lobby's
remove_game branch only ever answers the requesting client with
`game_removed` — no `GAME_DELETED` push is produced for any session. -/
theorem C4_remove_game_no_broadcast :
    handle_remove_game devGameDb "T" "dev" { game_id := some 1 } =
      (devGameDb, .err "not_developer") ∧
    (remove_game_checked devGameDb "T" "dev" { game_id := some 1 }).2 = .okRemove ∧
    (get_game (remove_game_checked devGameDb "T" "dev" { game_id := some 1 }).1.gamesFile 1).map
      (fun g => g.deleted) = some true ∧
    (remove_game_checked devGameDb "T" "dev" { game_id := some 1 }).1.versionsFile =
      devGameDb.versionsFile ∧
    dispatch_remove_game
        (remove_game_checked devGameDb "T" "dev" { game_id := some 1 }).2 =
      [(.caller, .response "ok" "game_removed")] ∧
    (dispatch_remove_game
        (remove_game_checked devGameDb "T" "dev" { game_id := some 1 }).2).all
      (fun m => m.1 == Dest.caller && !m.2.isGameDeleted) = true := by
  decide

end NPHW3
